import Mathlib

/-! A shallow embedding of src/debug.h: a C header of leveled, source-located
diagnostic logging macros.  Streams are modelled as handles into a table of
buffered text; the header's two globals (debug_stream, debug_level) are fields
of the program state; FILE pointers are Option Nat with none for NULL; C
undefined behaviour (fprintf applied to a malformed format) is Option.none. -/

/-- One stdio stream: the text already flushed to the device and the text
still pending in the stream's buffer. -/
@[ext]
structure StreamSt where
  flushed : String
  pending : String
deriving Repr, DecidableEq

/-- The program state: the header's two globals (debug.h lines 19-29), the
table of streams, and the program's own memory (used to observe side effects
of argument expressions, e.g. a counter). -/
@[ext]
structure ProgState where
  debug_level : Nat
  debug_stream : Option Nat
  streams : Nat → StreamSt
  mem : Nat → Int

/-- The handle of the process's standard error stream. -/
def stderrHandle : Nat := 2

/-- DEBUG_DEFAULT_STREAM (debug.h line 65) is stderr. -/
def DEBUG_DEFAULT_STREAM : Nat := stderrHandle

/-- DEBUG_MAX_LENGTH (debug.h lines 73-75): the guidance value for message
length; no emission path reads it. -/
def DEBUG_MAX_LENGTH : Nat := 60

/-- DEBUG_CHECK_FILE (debug.h lines 98-99):
(file != NULL) ? file : DEBUG_DEFAULT_STREAM. -/
def DEBUG_CHECK_FILE (file : Option Nat) : Nat :=
  file.getD DEBUG_DEFAULT_STREAM

/-- DEBUG_CHECK_LEVEL (debug.h lines 108-113, the GCC path).  DEBUG_LEVEL_TEMP
has the type of the level argument (int) and debug_level is unsigned int, so
C's usual arithmetic conversions make the first comparison unsigned (the int
value is reduced mod 2^32) while the second compares as signed int against
the int constant 0.  The source writes the conjunction in this order. -/
def DEBUG_CHECK_LEVEL (level : Int) (threshold : Nat) : Bool :=
  decide ((level % (2 : Int) ^ 32).toNat ≤ threshold) && decide (0 < level)

/-- A printf argument: the two argument kinds the header's contracts use. -/
inductive FmtArg where
  | str (s : String)
  | int (n : Int)
deriving Repr, DecidableEq

/-- The C printf format interpreter, covering the conversions this header's
contracts exercise: %%, %s and %d.  Any other use of the conversion character
(an unknown conversion, or a missing or wrongly typed argument) is C undefined
behaviour, modelled as none.  Arguments beyond the format's conversions are
ignored, as in C. -/
def formatChars : List Char → List FmtArg → Option (List Char)
  | [], _ => some []
  | c :: rest, args =>
    if c = '%' then
      match rest, args with
      | '%' :: r, a => (formatChars r a).map (fun t => '%' :: t)
      | 's' :: r, FmtArg.str s :: a => (formatChars r a).map (fun t => s.data ++ t)
      | 'd' :: r, FmtArg.int n :: a => (formatChars r a).map (fun t => (toString n).data ++ t)
      | _, _ => none
    else (formatChars rest args).map (fun t => c :: t)

/-- Append text to a stream's buffer (the effect of one fprintf call). -/
def writeTo (h : Nat) (text : String) (s : ProgState) : ProgState :=
  { s with streams := fun k => if k = h then
      { flushed := (s.streams h).flushed, pending := (s.streams h).pending ++ text }
    else s.streams k }

/-- fflush: move the stream's pending text out to the device. -/
def fflush (h : Nat) (s : ProgState) : ProgState :=
  { s with streams := fun k => if k = h then
      { flushed := (s.streams h).flushed ++ (s.streams h).pending, pending := "" }
    else s.streams k }

/-- fprintf on an already resolved handle: none is C undefined behaviour
(malformed format or argument mismatch). -/
def fprintf (h : Nat) (fmt : String) (args : List FmtArg) (s : ProgState) :
    Option ProgState :=
  (formatChars fmt.data args).map (fun out => writeTo h (String.mk out) s)

/-- A call site's location data: __FILE__, __LINE__ and FUNCTION (the
pretty-printed enclosing function name, debug.h lines 48-58). -/
structure LocationTag where
  file : String
  line : Nat
  func : String
deriving Repr, DecidableEq

/-- LINE_LOCATION (debug.h line 77): __FILE__ " " debug_quote(__LINE__) " ".
The preprocessor stringizes __LINE__ as its plain decimal rendering. -/
def LINE_LOCATION (loc : LocationTag) : String :=
  loc.file ++ " " ++ toString loc.line ++ " "

/-- fdebugl (debug.h lines 156-164): gate, resolve the file (the resolved
pointer is checked a second time in the fprintf call, as in the source),
print one line, flush. -/
def fdebugl (loc : LocationTag) (level : Int) (file : Option Nat) (string : String)
    (s : ProgState) : Option ProgState :=
  if DEBUG_CHECK_LEVEL level s.debug_level then
    let DEBUG_FILE : Nat := DEBUG_CHECK_FILE file
    (fprintf (DEBUG_CHECK_FILE (some DEBUG_FILE)) (LINE_LOCATION loc ++ "%s: %s\n")
      [FmtArg.str loc.func, FmtArg.str string] s).map (fflush DEBUG_FILE)
  else some s

/-- fdebuglf (debug.h lines 214-224): gate, resolve the file, three fprintf
calls (location line, the caller's format, the newline), flush. -/
def fdebuglf (loc : LocationTag) (level : Int) (file : Option Nat) (fmt : String)
    (args : List FmtArg) (s : ProgState) : Option ProgState :=
  if DEBUG_CHECK_LEVEL level s.debug_level then
    let DEBUG_FILE : Nat := DEBUG_CHECK_FILE file
    match fprintf DEBUG_FILE (LINE_LOCATION loc ++ "%s: ") [FmtArg.str loc.func] s with
    | none => none
    | some s1 =>
      match fprintf DEBUG_FILE fmt args s1 with
      | none => none
      | some s2 =>
        match fprintf DEBUG_FILE "\n" [] s2 with
        | none => none
        | some s3 => some (fflush DEBUG_FILE s3)
  else some s

/-- debug (debug.h lines 127-130): fdebugl(1, debug_stream, string). -/
def debug (loc : LocationTag) (string : String) (s : ProgState) : Option ProgState :=
  fdebugl loc 1 s.debug_stream string s

/-- fdebug (debug.h lines 136-139): fdebugl(1, file, string). -/
def fdebug (loc : LocationTag) (file : Option Nat) (string : String)
    (s : ProgState) : Option ProgState :=
  fdebugl loc 1 file string s

/-- debugl (debug.h lines 144-147): fdebugl(level, debug_stream, string). -/
def debugl (loc : LocationTag) (level : Int) (string : String)
    (s : ProgState) : Option ProgState :=
  fdebugl loc level s.debug_stream string s

/-- debugf (debug.h lines 180-183): fdebuglf(1, debug_stream, ...). -/
def debugf (loc : LocationTag) (fmt : String) (args : List FmtArg)
    (s : ProgState) : Option ProgState :=
  fdebuglf loc 1 s.debug_stream fmt args s

/-- fdebugf (debug.h lines 192-195): fdebuglf(1, file, ...). -/
def fdebugf (loc : LocationTag) (file : Option Nat) (fmt : String) (args : List FmtArg)
    (s : ProgState) : Option ProgState :=
  fdebuglf loc 1 file fmt args s

/-- debuglf (debug.h lines 200-203): fdebuglf(level, debug_stream, ...). -/
def debuglf (loc : LocationTag) (level : Int) (fmt : String) (args : List FmtArg)
    (s : ProgState) : Option ProgState :=
  fdebuglf loc level s.debug_stream fmt args s

/-- The globals as initialised at debug.h lines 19-29: debug_stream = NULL,
and debug_level = 1 unless a build-time DEBUG_LEVEL override is supplied, in
which case it is that value cast to unsigned int.  Streams start empty and
the program's memory starts at zero. -/
def initState (override : Option Int) : ProgState :=
  { debug_level :=
      match override with
      | some o => ((o % (2 : Int) ^ 32).toNat)
      | none => 1
  , debug_stream := none
  , streams := fun _ => { flushed := "", pending := "" }
  , mem := fun _ => 0 }

/-- The one line an emission produces for location loc and message text msg. -/
def emittedLine (loc : LocationTag) (msg : String) : String :=
  loc.file ++ " " ++ toString loc.line ++ " " ++ loc.func ++ ": " ++ msg ++ "\n"

/-- A location whose file and function names contain no percent character.
LINE_LOCATION is spliced into a printf format string by the source, so a
percent in __FILE__ or FUNCTION would itself be parsed as a conversion. -/
def cleanLoc (loc : LocationTag) : Prop :=
  ¬ '%' ∈ loc.file.data ∧ ¬ '%' ∈ loc.func.data

instance (loc : LocationTag) : Decidable (cleanLoc loc) := by
  unfold cleanLoc; infer_instance

/-! Helper lemmas. -/

theorem digitChar_ge16 (k : Nat) : Nat.digitChar (k + 16) = '*' := by
  have h0 : ¬ (k + 16 = 0) := by omega
  have h1 : ¬ (k + 16 = 1) := by omega
  have h2 : ¬ (k + 16 = 2) := by omega
  have h3 : ¬ (k + 16 = 3) := by omega
  have h4 : ¬ (k + 16 = 4) := by omega
  have h5 : ¬ (k + 16 = 5) := by omega
  have h6 : ¬ (k + 16 = 6) := by omega
  have h7 : ¬ (k + 16 = 7) := by omega
  have h8 : ¬ (k + 16 = 8) := by omega
  have h9 : ¬ (k + 16 = 9) := by omega
  have h10 : ¬ (k + 16 = 10) := by omega
  have h11 : ¬ (k + 16 = 11) := by omega
  have h12 : ¬ (k + 16 = 12) := by omega
  have h13 : ¬ (k + 16 = 13) := by omega
  have h14 : ¬ (k + 16 = 14) := by omega
  have h15 : ¬ (k + 16 = 15) := by omega
  simp [Nat.digitChar, h0, h1, h2, h3, h4, h5, h6, h7, h8,
        h9, h10, h11, h12, h13, h14, h15]

theorem digitChar_ne_percent (n : Nat) : Nat.digitChar n ≠ '%' := by
  match n with
  | 0 => decide
  | 1 => decide
  | 2 => decide
  | 3 => decide
  | 4 => decide
  | 5 => decide
  | 6 => decide
  | 7 => decide
  | 8 => decide
  | 9 => decide
  | 10 => decide
  | 11 => decide
  | 12 => decide
  | 13 => decide
  | 14 => decide
  | 15 => decide
  | k + 16 => rw [digitChar_ge16 k]; decide

theorem toDigitsCore_percent_not_mem (b fuel n : Nat) (ds : List Char)
    (h : '%' ∉ ds) : '%' ∉ Nat.toDigitsCore b fuel n ds := by
  induction fuel generalizing n ds with
  | zero => simpa [Nat.toDigitsCore] using h
  | succ fuel ih =>
    simp only [Nat.toDigitsCore]
    split
    · simp only [List.mem_cons, not_or]
      exact ⟨fun hc => digitChar_ne_percent _ hc.symm, h⟩
    · exact ih _ _ (by
        simp only [List.mem_cons, not_or]
        exact ⟨fun hc => digitChar_ne_percent _ hc.symm, h⟩)

theorem percent_not_mem_toString_nat (n : Nat) : '%' ∉ (toString n).data := by
  have hrepr : (toString n).data = Nat.toDigitsCore 10 (n + 1) n [] := rfl
  rw [hrepr]
  exact toDigitsCore_percent_not_mem 10 (n + 1) n [] (by simp)

theorem formatChars_nil (args : List FmtArg) : formatChars [] args = some [] := rfl

theorem formatChars_cons_ne {c : Char} (hc : c ≠ '%') (rest : List Char)
    (args : List FmtArg) :
    formatChars (c :: rest) args = (formatChars rest args).map (fun t => c :: t) := by
  rw [formatChars.eq_def]
  simp [hc]

theorem formatChars_clean_append {p : List Char} (hp : '%' ∉ p) (rest : List Char)
    (args : List FmtArg) :
    formatChars (p ++ rest) args = (formatChars rest args).map (fun t => p ++ t) := by
  induction p with
  | nil => simp
  | cons c p ih =>
    have hc : c ≠ '%' := fun h => hp (h ▸ List.mem_cons_self c p)
    have hp' : '%' ∉ p := fun h => hp (List.mem_cons_of_mem c h)
    rw [List.cons_append, formatChars_cons_ne hc, ih hp']
    cases formatChars rest args <;> simp

theorem formatChars_clean {p : List Char} (hp : '%' ∉ p) (args : List FmtArg) :
    formatChars p args = some p := by
  have h := formatChars_clean_append hp [] args
  rw [formatChars_nil] at h
  simpa using h

theorem writeTo_debug_level (h : Nat) (t : String) (s : ProgState) :
    (writeTo h t s).debug_level = s.debug_level := rfl

theorem writeTo_debug_stream (h : Nat) (t : String) (s : ProgState) :
    (writeTo h t s).debug_stream = s.debug_stream := rfl

theorem writeTo_mem (h : Nat) (t : String) (s : ProgState) :
    (writeTo h t s).mem = s.mem := rfl

theorem fflush_debug_level (h : Nat) (s : ProgState) :
    (fflush h s).debug_level = s.debug_level := rfl

theorem fflush_debug_stream (h : Nat) (s : ProgState) :
    (fflush h s).debug_stream = s.debug_stream := rfl

theorem fflush_mem (h : Nat) (s : ProgState) :
    (fflush h s).mem = s.mem := rfl

theorem writeTo_streams_self (h : Nat) (t : String) (s : ProgState) :
    (writeTo h t s).streams h =
      { flushed := (s.streams h).flushed, pending := (s.streams h).pending ++ t } := by
  simp [writeTo]

theorem writeTo_streams_other {k h : Nat} (hk : k ≠ h) (t : String) (s : ProgState) :
    (writeTo h t s).streams k = s.streams k := by
  simp [writeTo, hk]

theorem fflush_streams_self (h : Nat) (s : ProgState) :
    (fflush h s).streams h =
      { flushed := (s.streams h).flushed ++ (s.streams h).pending, pending := "" } := by
  simp [fflush]

theorem fflush_streams_other {k h : Nat} (hk : k ≠ h) (s : ProgState) :
    (fflush h s).streams k = s.streams k := by
  simp [fflush, hk]

theorem writeTo_writeTo (h : Nat) (a b : String) (s : ProgState) :
    writeTo h b (writeTo h a s) = writeTo h (a ++ b) s := by
  refine ProgState.ext rfl rfl (funext fun k => ?_) rfl
  by_cases hk : k = h <;> simp [writeTo, hk, String.append_assoc]

theorem formatChars_line (loc : LocationTag) (msg : String) (hloc : cleanLoc loc) :
    formatChars (LINE_LOCATION loc ++ "%s: %s\n").data
      [FmtArg.str loc.func, FmtArg.str msg] = some (emittedLine loc msg).data := by
  obtain ⟨hf, _⟩ := hloc
  have hsp : (" " : String).data = [' '] := rfl
  have hdata : (LINE_LOCATION loc ++ "%s: %s\n").data
      = (loc.file.data ++ [' '] ++ (toString loc.line).data ++ [' ']) ++ "%s: %s\n".data := by
    simp [LINE_LOCATION, String.data_append, hsp, List.append_assoc]
  have hp : '%' ∉ loc.file.data ++ [' '] ++ (toString loc.line).data ++ [' '] := by
    simp [hf, percent_not_mem_toString_nat]
  have hss : formatChars "%s: %s\n".data [FmtArg.str loc.func, FmtArg.str msg]
      = some (loc.func.data ++ ':' :: ' ' :: (msg.data ++ ['\n'])) := rfl
  rw [hdata, formatChars_clean_append hp, hss]
  have hnl : ("\n" : String).data = ['\n'] := rfl
  have hcs : ((": ") : String).data = [':', ' '] := rfl
  simp [emittedLine, String.data_append, hsp, hnl, hcs, List.append_assoc]

theorem formatChars_locfmt (loc : LocationTag) (hloc : cleanLoc loc) :
    formatChars (LINE_LOCATION loc ++ "%s: ").data [FmtArg.str loc.func]
      = some (LINE_LOCATION loc ++ loc.func ++ ": ").data := by
  obtain ⟨hf, _⟩ := hloc
  have hsp : (" " : String).data = [' '] := rfl
  have hdata : (LINE_LOCATION loc ++ "%s: ").data
      = (loc.file.data ++ [' '] ++ (toString loc.line).data ++ [' ']) ++ "%s: ".data := by
    simp [LINE_LOCATION, String.data_append, hsp, List.append_assoc]
  have hp : '%' ∉ loc.file.data ++ [' '] ++ (toString loc.line).data ++ [' '] := by
    simp [hf, percent_not_mem_toString_nat]
  have hss : formatChars "%s: ".data [FmtArg.str loc.func]
      = some (loc.func.data ++ [':', ' ']) := rfl
  rw [hdata, formatChars_clean_append hp, hss]
  have hcs : ((": ") : String).data = [':', ' '] := rfl
  simp [LINE_LOCATION, String.data_append, hsp, hcs, List.append_assoc]

theorem emittedLine_parts (loc : LocationTag) (msg : String) :
    emittedLine loc msg = (LINE_LOCATION loc ++ loc.func ++ ": ") ++ msg ++ "\n" := by
  apply String.ext
  simp [emittedLine, LINE_LOCATION, String.data_append, List.append_assoc]

theorem fdebugl_norm (loc : LocationTag) (L : Int) (f : Option Nat) (msg : String)
    (s : ProgState) (hloc : cleanLoc loc) :
    fdebugl loc L f msg s =
      if DEBUG_CHECK_LEVEL L s.debug_level then
        some (fflush (DEBUG_CHECK_FILE f)
          (writeTo (DEBUG_CHECK_FILE f) (emittedLine loc msg) s))
      else some s := by
  by_cases hgate : DEBUG_CHECK_LEVEL L s.debug_level = true
  · rw [if_pos hgate]
    unfold fdebugl fprintf
    rw [if_pos hgate, formatChars_line loc msg hloc]
    rfl
  · rw [if_neg hgate]
    unfold fdebugl
    rw [if_neg hgate]

theorem fdebugl_gate_false (loc : LocationTag) (L : Int) (f : Option Nat) (msg : String)
    (s : ProgState) (hgate : DEBUG_CHECK_LEVEL L s.debug_level = false) :
    fdebugl loc L f msg s = some s := by
  unfold fdebugl
  rw [if_neg (by simp [hgate])]

theorem fdebuglf_gate_false (loc : LocationTag) (L : Int) (f : Option Nat) (fmt : String)
    (args : List FmtArg) (s : ProgState)
    (hgate : DEBUG_CHECK_LEVEL L s.debug_level = false) :
    fdebuglf loc L f fmt args s = some s := by
  unfold fdebuglf
  rw [if_neg (by simp [hgate])]

theorem fdebuglf_norm (loc : LocationTag) (L : Int) (f : Option Nat) (fmt : String)
    (args : List FmtArg) (out : List Char) (s : ProgState) (hloc : cleanLoc loc)
    (hfmt : formatChars fmt.data args = some out) :
    fdebuglf loc L f fmt args s =
      if DEBUG_CHECK_LEVEL L s.debug_level then
        some (fflush (DEBUG_CHECK_FILE f)
          (writeTo (DEBUG_CHECK_FILE f) (emittedLine loc (String.mk out)) s))
      else some s := by
  by_cases hgate : DEBUG_CHECK_LEVEL L s.debug_level = true
  · rw [if_pos hgate]
    have h1 : fprintf (DEBUG_CHECK_FILE f) (LINE_LOCATION loc ++ "%s: ")
        [FmtArg.str loc.func] s
        = some (writeTo (DEBUG_CHECK_FILE f) (LINE_LOCATION loc ++ loc.func ++ ": ") s) := by
      unfold fprintf
      rw [formatChars_locfmt loc hloc]
      rfl
    have h2 : ∀ s1, fprintf (DEBUG_CHECK_FILE f) fmt args s1
        = some (writeTo (DEBUG_CHECK_FILE f) (String.mk out) s1) := fun s1 => by
      unfold fprintf
      rw [hfmt]
      rfl
    have h3 : ∀ s2, fprintf (DEBUG_CHECK_FILE f) "\n" ([] : List FmtArg) s2
        = some (writeTo (DEBUG_CHECK_FILE f) "\n" s2) := fun s2 => rfl
    unfold fdebuglf
    rw [if_pos hgate]
    simp only [h1, h2, h3]
    rw [writeTo_writeTo, writeTo_writeTo]
    have hline : (LINE_LOCATION loc ++ loc.func ++ ": ") ++ (String.mk out ++ "\n")
        = emittedLine loc (String.mk out) := by
      rw [emittedLine_parts]
      simp [String.append_assoc]
    rw [hline]
  · rw [if_neg hgate]
    unfold fdebuglf
    rw [if_neg hgate]

/-- A C expression: evaluating it yields a value and may change the program
state (for instance counter++ increments a cell of mem). -/
def CExpr (α : Type) : Type := ProgState → α × ProgState

/-- The expression that just yields v, with no side effect. -/
def pureE {α : Type} (v : α) : CExpr α := fun s => (v, s)

/-- debug in disabled mode (debug.h line 232): the macro expands to
do{}while(0); the argument does not appear in the expansion at all. -/
def debug_disabled (string : CExpr String) (s : ProgState) : ProgState := s

/-- debugl in disabled mode (debug.h line 233). -/
def debugl_disabled (level : CExpr Int) (string : CExpr String)
    (s : ProgState) : ProgState := s

/-- debugf in disabled mode (debug.h line 234). -/
def debugf_disabled (fmt : CExpr String) (args : CExpr (List FmtArg))
    (s : ProgState) : ProgState := s

/-- fdebug in disabled mode (debug.h line 235). -/
def fdebug_disabled (file : CExpr (Option Nat)) (string : CExpr String)
    (s : ProgState) : ProgState := s

/-- fdebugf in disabled mode (debug.h line 236). -/
def fdebugf_disabled (file : CExpr (Option Nat)) (fmt : CExpr String)
    (args : CExpr (List FmtArg)) (s : ProgState) : ProgState := s

/-- debuglf in disabled mode (debug.h line 237). -/
def debuglf_disabled (level : CExpr Int) (fmt : CExpr String)
    (args : CExpr (List FmtArg)) (s : ProgState) : ProgState := s

/-- fdebuglf in disabled mode (debug.h line 238). -/
def fdebuglf_disabled (level : CExpr Int) (file : CExpr (Option Nat))
    (fmt : CExpr String) (args : CExpr (List FmtArg)) (s : ProgState) : ProgState := s

/-- fdebugl applied to argument expressions, as the macro is: the level
expression is evaluated into DEBUG_LEVEL_TEMP, and the file and string
expressions are evaluated only inside the gated block (debug.h lines 156-164). -/
def fdebugl_call (loc : LocationTag) (level : CExpr Int) (file : CExpr (Option Nat))
    (string : CExpr String) (s : ProgState) : Option ProgState :=
  match level s with
  | (lv, s0) =>
    if DEBUG_CHECK_LEVEL lv s0.debug_level then
      match file s0 with
      | (f, s1) =>
        let DEBUG_FILE : Nat := DEBUG_CHECK_FILE f
        match string s1 with
        | (msg, s2) =>
          (fprintf (DEBUG_CHECK_FILE (some DEBUG_FILE)) (LINE_LOCATION loc ++ "%s: %s\n")
            [FmtArg.str loc.func, FmtArg.str msg] s2).map (fflush DEBUG_FILE)
    else some s0

/-- fdebuglf applied to argument expressions (debug.h lines 214-224): the
file expression is evaluated inside the gated block, and the payload
expressions at the second fprintf statement. -/
def fdebuglf_call (loc : LocationTag) (level : CExpr Int) (file : CExpr (Option Nat))
    (fmt : CExpr String) (args : CExpr (List FmtArg)) (s : ProgState) : Option ProgState :=
  match level s with
  | (lv, s0) =>
    if DEBUG_CHECK_LEVEL lv s0.debug_level then
      match file s0 with
      | (f, s1) =>
        let DEBUG_FILE : Nat := DEBUG_CHECK_FILE f
        match fprintf DEBUG_FILE (LINE_LOCATION loc ++ "%s: ") [FmtArg.str loc.func] s1 with
        | none => none
        | some s2 =>
          match fmt s2 with
          | (fm, s3) =>
            match args s3 with
            | (ar, s4) =>
              match fprintf DEBUG_FILE fm ar s4 with
              | none => none
              | some s5 =>
                match fprintf DEBUG_FILE "\n" [] s5 with
                | none => none
                | some s6 => some (fflush DEBUG_FILE s6)
    else some s0

theorem fdebuglf_eq (loc : LocationTag) (L : Int) (f : Option Nat) (fmt : String)
    (args : List FmtArg) (s : ProgState) :
    fdebuglf loc L f fmt args s =
      if DEBUG_CHECK_LEVEL L s.debug_level then
        match fprintf (DEBUG_CHECK_FILE f) (LINE_LOCATION loc ++ "%s: ")
            [FmtArg.str loc.func] s with
        | none => none
        | some s1 =>
          match fprintf (DEBUG_CHECK_FILE f) fmt args s1 with
          | none => none
          | some s2 =>
            match fprintf (DEBUG_CHECK_FILE f) "\n" [] s2 with
            | none => none
            | some s3 => some (fflush (DEBUG_CHECK_FILE f) s3)
      else some s := rfl

theorem fdebugl_eq (loc : LocationTag) (L : Int) (f : Option Nat) (msg : String)
    (s : ProgState) :
    fdebugl loc L f msg s =
      if DEBUG_CHECK_LEVEL L s.debug_level then
        (fprintf (DEBUG_CHECK_FILE f) (LINE_LOCATION loc ++ "%s: %s\n")
          [FmtArg.str loc.func, FmtArg.str msg] s).map (fflush (DEBUG_CHECK_FILE f))
      else some s := rfl

theorem fprintf_config (h : Nat) (fmt : String) (args : List FmtArg) (s s' : ProgState)
    (hp : fprintf h fmt args s = some s') :
    s'.debug_level = s.debug_level ∧ s'.debug_stream = s.debug_stream ∧ s'.mem = s.mem := by
  unfold fprintf at hp
  cases hfc : formatChars fmt.data args with
  | none => rw [hfc] at hp; simp at hp
  | some out =>
    rw [hfc] at hp
    simp at hp
    rw [← hp]
    exact ⟨rfl, rfl, rfl⟩

theorem fdebugl_config (loc : LocationTag) (L : Int) (f : Option Nat) (msg : String)
    (s s' : ProgState) (h : fdebugl loc L f msg s = some s') :
    s'.debug_level = s.debug_level ∧ s'.debug_stream = s.debug_stream ∧ s'.mem = s.mem := by
  rw [fdebugl_eq] at h
  split at h
  · cases hfp : fprintf (DEBUG_CHECK_FILE f)
        (LINE_LOCATION loc ++ "%s: %s\n") [FmtArg.str loc.func, FmtArg.str msg] s with
    | none => rw [hfp] at h; simp at h
    | some s1 =>
      rw [hfp] at h
      simp at h
      obtain ⟨h1, h2, h3⟩ := fprintf_config _ _ _ _ _ hfp
      rw [← h]
      exact ⟨h1, h2, h3⟩
  · cases h
    exact ⟨rfl, rfl, rfl⟩

theorem fdebuglf_config (loc : LocationTag) (L : Int) (f : Option Nat) (fmt : String)
    (args : List FmtArg) (s s' : ProgState) (h : fdebuglf loc L f fmt args s = some s') :
    s'.debug_level = s.debug_level ∧ s'.debug_stream = s.debug_stream ∧ s'.mem = s.mem := by
  rw [fdebuglf_eq] at h
  split at h
  · cases h1 : fprintf (DEBUG_CHECK_FILE f) (LINE_LOCATION loc ++ "%s: ")
        [FmtArg.str loc.func] s with
    | none => rw [h1] at h; simp at h
    | some s1 =>
      rw [h1] at h
      simp only [] at h
      cases h2 : fprintf (DEBUG_CHECK_FILE f) fmt args s1 with
      | none => rw [h2] at h; simp at h
      | some s2 =>
        rw [h2] at h
        simp only [] at h
        cases h3 : fprintf (DEBUG_CHECK_FILE f) "\n" [] s2 with
        | none => rw [h3] at h; simp at h
        | some s3 =>
          rw [h3] at h
          simp at h
          obtain ⟨a1, a2, a3⟩ := fprintf_config _ _ _ _ _ h1
          obtain ⟨b1, b2, b3⟩ := fprintf_config _ _ _ _ _ h2
          obtain ⟨c1, c2, c3⟩ := fprintf_config _ _ _ _ _ h3
          rw [← h]
          exact ⟨by rw [fflush_debug_level, c1, b1, a1],
                 by rw [fflush_debug_stream, c2, b2, a2],
                 by rw [fflush_mem, c3, b3, a3]⟩
  · cases h
    exact ⟨rfl, rfl, rfl⟩

/-! The claims. -/

/-- C1: when the diagnostics-enabled switch (DEBUG) is not set at build time,
every public entry point (debug, debugl, debugf, fdebug, fdebugf, debuglf,
fdebuglf) is a no-op that does not evaluate any of its argument expressions:
whatever side effects the argument expressions would have (e.g. incrementing
a counter in mem), the program state after the call equals the state before
the call. -/
theorem C1_disabled_mode_noop (lvlE : CExpr Int) (fileE : CExpr (Option Nat))
    (strE : CExpr String) (fmtE : CExpr String) (argsE : CExpr (List FmtArg))
    (s : ProgState) :
    debug_disabled strE s = s ∧
    debugl_disabled lvlE strE s = s ∧
    debugf_disabled fmtE argsE s = s ∧
    fdebug_disabled fileE strE s = s ∧
    fdebugf_disabled fileE fmtE argsE s = s ∧
    debuglf_disabled lvlE fmtE argsE s = s ∧
    fdebuglf_disabled lvlE fileE fmtE argsE s = s :=
  ⟨rfl, rfl, rfl, rfl, rfl, rfl, rfl⟩

/-- C2: in enabled mode, for every message level L (an int, so L < 2^31) and
every threshold T, the gate passes iff 0 < L and L <= T; L <= 0 never passes
for any T; T = 0 never passes; and fdebugl emits exactly when the gate
passes. -/
theorem C2_level_gate (L : Int) (T : Nat) (hL : L < 2 ^ 31) :
    (DEBUG_CHECK_LEVEL L T = true ↔ 0 < L ∧ L ≤ (T : Int)) ∧
    (L ≤ 0 → DEBUG_CHECK_LEVEL L T = false) ∧
    DEBUG_CHECK_LEVEL L 0 = false ∧
    (∀ loc f msg s, ProgState.debug_level s = T → cleanLoc loc →
      fdebugl loc L f msg s =
        if 0 < L ∧ L ≤ (T : Int) then
          some (fflush (DEBUG_CHECK_FILE f)
            (writeTo (DEBUG_CHECK_FILE f) (emittedLine loc msg) s))
        else some s) := by
  have key : ∀ T' : Nat, DEBUG_CHECK_LEVEL L T' = true ↔
      ((L % (2 : Int) ^ 32).toNat ≤ T' ∧ 0 < L) := by
    intro T'
    simp [DEBUG_CHECK_LEVEL]
  have hiff : DEBUG_CHECK_LEVEL L T = true ↔ 0 < L ∧ L ≤ (T : Int) := by
    rw [key]
    omega
  refine ⟨hiff, ?_, ?_, ?_⟩
  · intro hle
    cases hbool : DEBUG_CHECK_LEVEL L T with
    | false => rfl
    | true => exact absurd (hiff.mp hbool).1 (by omega)
  · cases hbool : DEBUG_CHECK_LEVEL L 0 with
    | false => rfl
    | true =>
      have := (key 0).mp hbool
      omega
  · intro loc f msg s hT hloc
    rw [fdebugl_norm loc L f msg s hloc, hT]
    exact if_congr hiff rfl rfl

/-- C2 witness: at L = 1, T = 1 the gate passes. -/
theorem C2_level_gate_witness : DEBUG_CHECK_LEVEL 1 1 = true :=
  (C2_level_gate 1 1 (by norm_num)).1.mpr (by norm_num)

/-- C3: in enabled mode every emitted line is exactly
file, space, decimal line number, space, function, colon, space, message,
newline; the message appears whole whatever its length, and DEBUG_MAX_LENGTH
plays no role. -/
theorem C3_emitted_line_shape (loc : LocationTag) (L : Int) (f : Option Nat)
    (msg fmt : String) (args : List FmtArg) (out : List Char) (s : ProgState)
    (hloc : cleanLoc loc) (hgate : DEBUG_CHECK_LEVEL L s.debug_level = true)
    (hfmt : formatChars fmt.data args = some out) :
    fdebugl loc L f msg s =
      some (fflush (DEBUG_CHECK_FILE f) (writeTo (DEBUG_CHECK_FILE f)
        (loc.file ++ " " ++ toString loc.line ++ " " ++ loc.func ++ ": " ++ msg ++ "\n") s)) ∧
    fdebuglf loc L f fmt args s =
      some (fflush (DEBUG_CHECK_FILE f) (writeTo (DEBUG_CHECK_FILE f)
        (loc.file ++ " " ++ toString loc.line ++ " " ++ loc.func ++ ": "
          ++ String.mk out ++ "\n") s)) ∧
    (DEBUG_MAX_LENGTH < msg.length →
      fdebugl loc L f msg s =
        some (fflush (DEBUG_CHECK_FILE f) (writeTo (DEBUG_CHECK_FILE f)
          (loc.file ++ " " ++ toString loc.line ++ " " ++ loc.func ++ ": " ++ msg ++ "\n") s))) := by
  refine ⟨?_, ?_, fun _ => ?_⟩
  · rw [fdebugl_norm loc L f msg s hloc, if_pos hgate]
    rfl
  · rw [fdebuglf_norm loc L f fmt args out s hloc hfmt, if_pos hgate]
    rfl
  · rw [fdebugl_norm loc L f msg s hloc, if_pos hgate]
    rfl

/-- C3 witness: scenario A, main 42 run, message hello. -/
theorem C3_emitted_line_shape_witness :
    fdebugl ⟨"main", 42, "run"⟩ 1 none "hello" (initState none) =
      some (fflush (DEBUG_CHECK_FILE none) (writeTo (DEBUG_CHECK_FILE none)
        ("main" ++ " " ++ toString (42 : Nat) ++ " " ++ "run" ++ ": " ++ "hello" ++ "\n")
        (initState none))) :=
  (C3_emitted_line_shape ⟨"main", 42, "run"⟩ 1 none "hello" "x" [] "x".data (initState none)
    (by decide) (by decide) (by decide)).1

/-- C4 counterexample: with the process-wide default debug_stream set to
stream 5, the explicit-NULL call fdebugl(1, NULL, "x") emits to stderr
(handle 2), leaving stream 5 untouched — the fallback never consults
debug_stream, contradicting resolution to "the process-wide default
(debug_stream, falling back to stderr)". -/
theorem C4_null_destination_cex :
    ((fdebugl ⟨"f", 7, "g"⟩ 1 none "x"
        { debug_level := 1, debug_stream := some 5,
          streams := fun _ => { flushed := "", pending := "" }, mem := fun _ => 0 }).map
      (fun s' => ((s'.streams 5).flushed, (s'.streams 5).pending, (s'.streams 2).flushed)))
      = some ("", "", "f 7 g: x\n") := by decide

/-- C4 amended: if the explicit destination argument is non-null it is used,
otherwise DEBUG_DEFAULT_STREAM (stderr) is used directly — debug_stream is
not consulted by the fallback; the implicit-destination entry points pass
debug_stream as the explicit argument, so an implicit call is identical to
the explicit call with the current debug_stream passed explicitly, and a
valid explicit destination receives the output instead of the default. -/
theorem C4_destination_resolution (loc : LocationTag) (L : Int) (g : Nat)
    (msg fmt : String) (args : List FmtArg) (s : ProgState)
    (hloc : cleanLoc loc) (hgate : DEBUG_CHECK_LEVEL L s.debug_level = true) :
    DEBUG_CHECK_FILE none = DEBUG_DEFAULT_STREAM ∧
    DEBUG_CHECK_FILE (some g) = g ∧
    debug loc msg s = fdebugl loc 1 s.debug_stream msg s ∧
    debugl loc L msg s = fdebugl loc L s.debug_stream msg s ∧
    debugf loc fmt args s = fdebuglf loc 1 s.debug_stream fmt args s ∧
    debuglf loc L fmt args s = fdebuglf loc L s.debug_stream fmt args s ∧
    fdebugl loc L (some g) msg s =
      some (fflush g (writeTo g (emittedLine loc msg) s)) ∧
    (∀ k, k ≠ g → (fflush g (writeTo g (emittedLine loc msg) s)).streams k = s.streams k) := by
  refine ⟨rfl, rfl, rfl, rfl, rfl, rfl, ?_, ?_⟩
  · rw [fdebugl_norm loc L (some g) msg s hloc, if_pos hgate]
    rfl
  · intro k hk
    rw [fflush_streams_other hk, writeTo_streams_other hk]

/-- C4 witness: an explicit destination (stream 3) receives the line. -/
theorem C4_destination_resolution_witness :
    fdebugl ⟨"main", 42, "run"⟩ 1 (some 3) "hello" (initState none) =
      some (fflush 3 (writeTo 3 (emittedLine ⟨"main", 42, "run"⟩ "hello") (initState none))) :=
  (C4_destination_resolution ⟨"main", 42, "run"⟩ 1 3 "hello" "x" [] (initState none)
    (by decide) (by decide)).2.2.2.2.2.2.1

/-- C5: in enabled mode every public entry point is one canonical emission:
debug, fdebug and debugl reduce to fdebugl; debugf, fdebugf and debuglf
reduce to fdebuglf, with level 1 and destination debug_stream filled in; and
the canonical emission applies the level gate first — when the gate fails,
the call returns with the state untouched, without resolving the destination
and without formatting (even a malformed format cannot fault). -/
theorem C5_entry_points_canonical (loc : LocationTag) (L : Int) (f : Option Nat)
    (msg fmt : String) (args : List FmtArg) (s : ProgState) :
    debug loc msg s = fdebugl loc 1 s.debug_stream msg s ∧
    fdebug loc f msg s = fdebugl loc 1 f msg s ∧
    debugl loc L msg s = fdebugl loc L s.debug_stream msg s ∧
    debugf loc fmt args s = fdebuglf loc 1 s.debug_stream fmt args s ∧
    fdebugf loc f fmt args s = fdebuglf loc 1 f fmt args s ∧
    debuglf loc L fmt args s = fdebuglf loc L s.debug_stream fmt args s ∧
    (DEBUG_CHECK_LEVEL L s.debug_level = false →
      fdebugl loc L f msg s = some s ∧ fdebuglf loc L f fmt args s = some s) :=
  ⟨rfl, rfl, rfl, rfl, rfl, rfl, fun hg =>
    ⟨fdebugl_gate_false loc L f msg s hg, fdebuglf_gate_false loc L f fmt args s hg⟩⟩

/-- C6: for every emission that passes the gate, the resolved destination is
flushed immediately after the line is written and before the call returns:
the destination's buffer is empty in the returned state, and its device text
has gained exactly the old buffer contents followed by the emitted line. -/
theorem C6_flush_after_write (loc : LocationTag) (L : Int) (f : Option Nat)
    (msg fmt : String) (args : List FmtArg) (out : List Char) (s : ProgState)
    (hloc : cleanLoc loc) (hgate : DEBUG_CHECK_LEVEL L s.debug_level = true)
    (hfmt : formatChars fmt.data args = some out) :
    (∀ s', fdebugl loc L f msg s = some s' →
      (s'.streams (DEBUG_CHECK_FILE f)).pending = "" ∧
      (s'.streams (DEBUG_CHECK_FILE f)).flushed =
        (s.streams (DEBUG_CHECK_FILE f)).flushed ++
          ((s.streams (DEBUG_CHECK_FILE f)).pending ++ emittedLine loc msg)) ∧
    (∀ s', fdebuglf loc L f fmt args s = some s' →
      (s'.streams (DEBUG_CHECK_FILE f)).pending = "" ∧
      (s'.streams (DEBUG_CHECK_FILE f)).flushed =
        (s.streams (DEBUG_CHECK_FILE f)).flushed ++
          ((s.streams (DEBUG_CHECK_FILE f)).pending ++ emittedLine loc (String.mk out))) := by
  constructor
  · intro s' h
    rw [fdebugl_norm loc L f msg s hloc, if_pos hgate] at h
    have hs := Option.some.inj h
    subst hs
    simp [fflush_streams_self, writeTo_streams_self, String.append_assoc]
  · intro s' h
    rw [fdebuglf_norm loc L f fmt args out s hloc hfmt, if_pos hgate] at h
    have hs := Option.some.inj h
    subst hs
    simp [fflush_streams_self, writeTo_streams_self, String.append_assoc]

/-- C6 witness: scenario A at the initial state; stderr's buffer is empty
afterwards and its device text is exactly the emitted line. -/
theorem C6_flush_after_write_witness :
    (((fdebugl ⟨"main", 42, "run"⟩ 1 none "hello" (initState none)).getD
          (initState none)).streams (DEBUG_CHECK_FILE none)).pending = "" ∧
    (((fdebugl ⟨"main", 42, "run"⟩ 1 none "hello" (initState none)).getD
          (initState none)).streams (DEBUG_CHECK_FILE none)).flushed =
      ((initState none).streams (DEBUG_CHECK_FILE none)).flushed ++
        (((initState none).streams (DEBUG_CHECK_FILE none)).pending ++
          emittedLine ⟨"main", 42, "run"⟩ "hello") :=
  (C6_flush_after_write ⟨"main", 42, "run"⟩ 1 none "hello" "x" [] "x".data (initState none)
      (by decide) (by decide) (by decide)).1 _ rfl

/-- C7 counterexample: for X = "%%" the zero-argument format call prints
one percent sign where the literal-string call prints two, so the two calls
do not produce the same emitted line for every string X. -/
theorem C7_zero_arg_format_cex :
    ((fdebuglf ⟨"f", 7, "g"⟩ 1 (some 3) "%%" [] (initState none)).map
        (fun s' => (s'.streams 3).flushed)) = some "f 7 g: %\n" ∧
    ((fdebugl ⟨"f", 7, "g"⟩ 1 (some 3) "%%" (initState none)).map
        (fun s' => (s'.streams 3).flushed)) = some "f 7 g: %%\n" ∧
    ("f 7 g: %\n" : String) ≠ "f 7 g: %%\n" :=
  ⟨by decide, by decide, by decide⟩

/-- C7 amended: a literal-string call and the format call with template "%s"
and that string as argument produce identical results for every string X;
the zero-argument format call is identical to the literal-string call for
every X that contains no percent character (for X containing percent the
format interpreter consumes it, as the counterexample shows). -/
theorem C7_format_equivalence (loc : LocationTag) (L : Int) (f : Option Nat)
    (X : String) (s : ProgState) (hloc : cleanLoc loc) :
    fdebuglf loc L f "%s" [FmtArg.str X] s = fdebugl loc L f X s ∧
    ('%' ∉ X.data → fdebuglf loc L f X [] s = fdebugl loc L f X s) := by
  constructor
  · have hX : formatChars ("%s" : String).data [FmtArg.str X] = some X.data := by
      have h0 : formatChars ("%s" : String).data [FmtArg.str X] = some (X.data ++ []) := rfl
      simpa using h0
    rw [fdebuglf_norm loc L f "%s" [FmtArg.str X] X.data s hloc hX,
        fdebugl_norm loc L f X s hloc]
  · intro hX
    rw [fdebuglf_norm loc L f X [] X.data s hloc (formatChars_clean hX []),
        fdebugl_norm loc L f X s hloc]

/-- C7 witness: the literal call with "hello" equals the "%s" call with
argument "hello". -/
theorem C7_format_equivalence_witness :
    fdebuglf ⟨"main", 42, "run"⟩ 1 none "%s" [FmtArg.str "hello"] (initState none) =
      fdebugl ⟨"main", 42, "run"⟩ 1 none "hello" (initState none) :=
  (C7_format_equivalence ⟨"main", 42, "run"⟩ 1 none "hello" (initState none) (by decide)).1

/-- C8: at process start debug_level is 1 unless a DEBUG_LEVEL override is
supplied, in which case it is that value cast to unsigned int (and so lies
in the unsigned range); debug_stream starts NULL, so the destination the
implicit-destination calls resolve to is the standard error stream. -/
theorem C8_initial_configuration (o : Int) :
    (initState none).debug_level = 1 ∧
    (initState (some o)).debug_level = (o % (2 : Int) ^ 32).toNat ∧
    (initState (some o)).debug_level < 2 ^ 32 ∧
    (initState none).debug_stream = none ∧
    DEBUG_CHECK_FILE (initState none).debug_stream = stderrHandle ∧
    DEBUG_CHECK_FILE (initState (some o)).debug_stream = stderrHandle := by
  refine ⟨rfl, rfl, ?_, rfl, rfl, rfl⟩
  have hd : (initState (some o)).debug_level = (o % (2 : Int) ^ 32).toNat := rfl
  rw [hd]
  have h1 : 0 ≤ o % (2 : Int) ^ 32 := Int.emod_nonneg o (by norm_num)
  have h2 : o % (2 : Int) ^ 32 < 2 ^ 32 := Int.emod_lt_of_pos o (by norm_num)
  omega

/-- C9: a call whose level fails the gate is silently suppressed: the state
is returned unchanged (no output on any stream), the result is some (no
error), and the destination and payload argument expressions are not
evaluated — the result is the same for every destination and payload
expression, side effects included. -/
theorem C9_suppressed_call_silent (loc : LocationTag) (L : Int)
    (fileE : CExpr (Option Nat)) (strE : CExpr String) (fmtE : CExpr String)
    (argsE : CExpr (List FmtArg)) (f : Option Nat) (msg fmt : String)
    (args : List FmtArg) (s : ProgState)
    (hgate : DEBUG_CHECK_LEVEL L s.debug_level = false) :
    fdebugl loc L f msg s = some s ∧
    fdebuglf loc L f fmt args s = some s ∧
    fdebugl_call loc (pureE L) fileE strE s = some s ∧
    fdebuglf_call loc (pureE L) fileE fmtE argsE s = some s := by
  refine ⟨fdebugl_gate_false loc L f msg s hgate,
          fdebuglf_gate_false loc L f fmt args s hgate, ?_, ?_⟩
  · unfold fdebugl_call pureE
    simp [hgate]
  · unfold fdebuglf_call pureE
    simp [hgate]

/-- C9 witness: scenario B, threshold 2 and level 5 produce no output. -/
theorem C9_suppressed_call_silent_witness :
    fdebugl ⟨"main", 42, "run"⟩ 5 none "hello" (initState (some 2)) =
      some (initState (some 2)) :=
  (C9_suppressed_call_silent ⟨"main", 42, "run"⟩ 5 (pureE none) (pureE "hello")
    (pureE "x") (pureE []) none "hello" "x" [] (initState (some 2)) (by decide)).1

/-- C10: no enabled-mode entry point ever modifies the process-wide
configuration: whenever a call returns a state, that state's debug_level and
debug_stream equal their values before the call, whether or not anything was
emitted. -/
theorem C10_entry_points_preserve_configuration (loc : LocationTag) (L : Int)
    (f : Option Nat) (msg fmt : String) (args : List FmtArg) (s s' : ProgState) :
    (fdebugl loc L f msg s = some s' →
      s'.debug_level = s.debug_level ∧ s'.debug_stream = s.debug_stream) ∧
    (fdebuglf loc L f fmt args s = some s' →
      s'.debug_level = s.debug_level ∧ s'.debug_stream = s.debug_stream) ∧
    (debug loc msg s = some s' →
      s'.debug_level = s.debug_level ∧ s'.debug_stream = s.debug_stream) ∧
    (fdebug loc f msg s = some s' →
      s'.debug_level = s.debug_level ∧ s'.debug_stream = s.debug_stream) ∧
    (debugl loc L msg s = some s' →
      s'.debug_level = s.debug_level ∧ s'.debug_stream = s.debug_stream) ∧
    (debugf loc fmt args s = some s' →
      s'.debug_level = s.debug_level ∧ s'.debug_stream = s.debug_stream) ∧
    (fdebugf loc f fmt args s = some s' →
      s'.debug_level = s.debug_level ∧ s'.debug_stream = s.debug_stream) ∧
    (debuglf loc L fmt args s = some s' →
      s'.debug_level = s.debug_level ∧ s'.debug_stream = s.debug_stream) := by
  refine ⟨fun h => ?_, fun h => ?_, fun h => ?_, fun h => ?_,
          fun h => ?_, fun h => ?_, fun h => ?_, fun h => ?_⟩
  · obtain ⟨a, b, -⟩ := fdebugl_config loc L f msg s s' h; exact ⟨a, b⟩
  · obtain ⟨a, b, -⟩ := fdebuglf_config loc L f fmt args s s' h; exact ⟨a, b⟩
  · obtain ⟨a, b, -⟩ := fdebugl_config loc 1 s.debug_stream msg s s' h; exact ⟨a, b⟩
  · obtain ⟨a, b, -⟩ := fdebugl_config loc 1 f msg s s' h; exact ⟨a, b⟩
  · obtain ⟨a, b, -⟩ := fdebugl_config loc L s.debug_stream msg s s' h; exact ⟨a, b⟩
  · obtain ⟨a, b, -⟩ := fdebuglf_config loc 1 s.debug_stream fmt args s s' h; exact ⟨a, b⟩
  · obtain ⟨a, b, -⟩ := fdebuglf_config loc 1 f fmt args s s' h; exact ⟨a, b⟩
  · obtain ⟨a, b, -⟩ := fdebuglf_config loc L s.debug_stream fmt args s s' h; exact ⟨a, b⟩
